import Mathlib

/-!
Verification of the GitAccountSwitcher icon pipeline.

Shallow embedding of the two source files that carry the core logic:
  - `GitAccountSwitcher/generate_icon.py`  (namespace `GenerateIcon`)
  - `GitAccountSwitcher/process_ai_icon.py` (namespace `ProcessAiIcon`)

Conventions of the embedding:
  - A canvas is a total function from pixel coordinates to RGBA values;
    statements about a concrete image restrict coordinates to `x < size`,
    `y < size`.
  - Python `int(...)` applied to a nonnegative float is modelled as integer
    floor division over exact rationals/integers.  Every scaled parameter in
    the source is `k * (size / 1024)` with `1024` a power of two, so the
    float product is exact and the model agrees with the source bit for bit;
    the corner radius `int(size * 0.2237)` is modelled by the exact rational
    `size * 2237 / 10000`.
  - Floating-point trigonometry (`math.cos`, `math.sin`, `math.radians`) is
    idealised over `ℝ`.
-/

/-- One RGBA pixel: four 8-bit unsigned channels (values 0..255 in the
source; the embedding uses `ℕ` and never produces values outside 0..255
from in-range inputs). -/
structure RGBA where
  r : ℕ
  g : ℕ
  b : ℕ
  a : ℕ
deriving DecidableEq, Repr

/-- A canvas: a grid of RGBA pixels addressed by (x, y). -/
def Canvas : Type := ℕ → ℕ → RGBA

namespace GenerateIcon

/-- Embeds `corner_radius = int(size * 0.2237)` from
`generate_icon.py::apply_macos_rounding` (line 200).  Python `int` truncates
toward zero; the product is nonnegative, so truncation is floor, and the
float `size * 0.2237` is modelled by the exact rational `size * 2237 / 10000`. -/
def corner_radius (size : ℕ) : ℕ :=
  size * 2237 / 10000

/-- Modelled from the spec: the rasterization of PIL
`ImageDraw.rounded_rectangle([0, 0, size - 1, size - 1], radius, fill=255)`
(generate_icon.py line 201) is library code absent from this repository.
The spec (section 4.2, step 2) gives the membership rule: a pixel is inside
the rounded rectangle iff it lies in the central cross (x or y between the
radius and `size - 1 - radius`) or within Euclidean distance `radius` of one
of the four corner-circle centers, which are inset by the radius from each
edge.  Inside pixels get mask value 255, outside pixels 0. -/
def rounded_rect_mask (size r x y : ℤ) : ℕ :=
  if (r ≤ x ∧ x ≤ size - 1 - r) ∨ (r ≤ y ∧ y ≤ size - 1 - r)
      ∨ (x - r) ^ 2 + (y - r) ^ 2 ≤ r ^ 2
      ∨ (x - (size - 1 - r)) ^ 2 + (y - r) ^ 2 ≤ r ^ 2
      ∨ (x - r) ^ 2 + (y - (size - 1 - r)) ^ 2 ≤ r ^ 2
      ∨ (x - (size - 1 - r)) ^ 2 + (y - (size - 1 - r)) ^ 2 ≤ r ^ 2
  then 255 else 0

/-- Embeds `apply_macos_rounding(img, size)` from `generate_icon.py`
(lines 193-215): build the rounded-rectangle mask, then for every pixel set
the new alpha to `min(orig_alpha, mask_alpha)` while the R, G, B channels
are carried over unchanged (`img.putalpha(new_alpha)` replaces only the
alpha band). -/
def apply_macos_rounding (img : Canvas) (size : ℕ) : Canvas :=
  fun x y =>
    let p := img x y
    { r := p.r, g := p.g, b := p.b,
      a := min p.a (rounded_rect_mask (size : ℤ) ((corner_radius size : ℕ) : ℤ) (x : ℤ) (y : ℤ)) }

/-- The spec formula for the corner radius, written from the spec words
`corner radius = round(size * cornerRatio)` with `cornerRatio = 0.2237`:
round-to-nearest (half away from zero) of the exact rational
`size * 2237 / 10000`. -/
def corner_radius_spec_round (size : ℕ) : ℕ :=
  (size * 2237 + 5000) / 10000

end GenerateIcon

namespace ProcessAiIcon

/-- Embeds `corner_radius = int(size * 0.2237)` from
`process_ai_icon.py::apply_macos_rounding` (line 35); same modelling of
Python `int` of a nonnegative float as in `GenerateIcon.corner_radius`. -/
def corner_radius (size : ℕ) : ℕ :=
  size * 2237 / 10000

/-- Embeds `apply_macos_rounding(img, size)` from `process_ai_icon.py`
(lines 27-49): identical algorithm to the one in `generate_icon.py` —
rounded-rectangle mask with radius `int(size * 0.2237)`, new alpha
`min(orig_alpha, mask_alpha)`, color channels untouched.  Both files invoke
the same PIL `rounded_rectangle` primitive, so the shared model
`GenerateIcon.rounded_rect_mask` is used for the mask. -/
def apply_macos_rounding (img : Canvas) (size : ℕ) : Canvas :=
  fun x y =>
    let p := img x y
    { r := p.r, g := p.g, b := p.b,
      a := min p.a (GenerateIcon.rounded_rect_mask (size : ℤ) ((corner_radius size : ℕ) : ℤ) (x : ℤ) (y : ℤ)) }

/-- Embeds the per-pixel body of `make_transparent(img, tolerance)` from
`process_ai_icon.py` (lines 10-25): if all three color channels are
strictly above `255 - tolerance` the pixel becomes `(255, 255, 255, 0)`,
otherwise it is kept as is. -/
def make_transparent_pixel (tolerance : ℕ) (p : RGBA) : RGBA :=
  if 255 - tolerance < p.r ∧ 255 - tolerance < p.g ∧ 255 - tolerance < p.b
  then { r := 255, g := 255, b := 255, a := 0 }
  else p

/-- Embeds `make_transparent(img, tolerance)` as a whole: the source walks
`img.getdata()` and rebuilds the image with `putdata`, i.e. it maps the
per-pixel rule over every pixel position. -/
def make_transparent (tolerance : ℕ) (img : Canvas) : Canvas :=
  fun x y => make_transparent_pixel tolerance (img x y)

end ProcessAiIcon

section MaskerTheorems

open GenerateIcon

/-- C1: applying the corner mask twice with the same size equals applying it
once, pixel for pixel, because `min (min a m) m = min a m`. -/
theorem apply_macos_rounding_idempotent (img : Canvas) (size x y : ℕ)
    (hsize : 0 < size) (hx : x < size) (hy : y < size) :
    apply_macos_rounding (apply_macos_rounding img size) size x y
      = apply_macos_rounding img size x y := by
  simp [apply_macos_rounding, Nat.min_assoc]

/-- Witness for C1 at a concrete canvas, size 4 and pixel (1, 2). -/
theorem apply_macos_rounding_idempotent_witness :
    0 < 4 ∧ 1 < 4 ∧ 2 < 4 ∧
      apply_macos_rounding (apply_macos_rounding (fun _ _ => ⟨10, 20, 30, 200⟩) 4) 4 1 2
        = apply_macos_rounding (fun _ _ => ⟨10, 20, 30, 200⟩) 4 1 2 :=
  ⟨by decide, by decide, by decide,
    apply_macos_rounding_idempotent (fun _ _ => ⟨10, 20, 30, 200⟩) 4 1 2
      (by decide) (by decide) (by decide)⟩

/-- C2: the output alpha is exactly `min` of the input alpha and the mask
value at that pixel, hence at most the input alpha. -/
theorem apply_macos_rounding_alpha_min (img : Canvas) (size x y : ℕ)
    (hsize : 0 < size) (hx : x < size) (hy : y < size) :
    (apply_macos_rounding img size x y).a
        = min (img x y).a (rounded_rect_mask (size : ℤ) ((corner_radius size : ℕ) : ℤ) (x : ℤ) (y : ℤ)) ∧
      (apply_macos_rounding img size x y).a ≤ (img x y).a :=
  ⟨rfl, Nat.min_le_left _ _⟩

/-- Witness for C2 at a concrete canvas, size 4 and pixel (0, 0). -/
theorem apply_macos_rounding_alpha_min_witness :
    0 < 4 ∧ 0 < 4 ∧ 0 < 4 ∧
      ((apply_macos_rounding (fun _ _ => ⟨1, 2, 3, 77⟩) 4 0 0).a
          = min 77 (rounded_rect_mask 4 ((corner_radius 4 : ℕ) : ℤ) 0 0) ∧
        (apply_macos_rounding (fun _ _ => ⟨1, 2, 3, 77⟩) 4 0 0).a ≤ 77) :=
  ⟨by decide, by decide, by decide,
    apply_macos_rounding_alpha_min (fun _ _ => ⟨1, 2, 3, 77⟩) 4 0 0
      (by decide) (by decide) (by decide)⟩

/-- C3: the corner-masking operation leaves R, G and B unchanged at every
pixel; only alpha may differ. -/
theorem apply_macos_rounding_preserves_rgb (img : Canvas) (size x y : ℕ)
    (hsize : 0 < size) (hx : x < size) (hy : y < size) :
    (apply_macos_rounding img size x y).r = (img x y).r ∧
      (apply_macos_rounding img size x y).g = (img x y).g ∧
      (apply_macos_rounding img size x y).b = (img x y).b :=
  ⟨rfl, rfl, rfl⟩

/-- Witness for C3 at a concrete canvas, size 4 and pixel (3, 3). -/
theorem apply_macos_rounding_preserves_rgb_witness :
    0 < 4 ∧ 3 < 4 ∧ 3 < 4 ∧
      ((apply_macos_rounding (fun _ _ => ⟨9, 8, 7, 6⟩) 4 3 3).r = 9 ∧
        (apply_macos_rounding (fun _ _ => ⟨9, 8, 7, 6⟩) 4 3 3).g = 8 ∧
        (apply_macos_rounding (fun _ _ => ⟨9, 8, 7, 6⟩) 4 3 3).b = 7) :=
  ⟨by decide, by decide, by decide,
    apply_macos_rounding_preserves_rgb (fun _ _ => ⟨9, 8, 7, 6⟩) 4 3 3
      (by decide) (by decide) (by decide)⟩

/-- C4 counterexample: at size 512 the source truncates
`512 * 0.2237 = 114.5344` to 114, while the spec's round-to-nearest gives
115 — the claim that the radius is rounded, not truncated, is false. -/
theorem corner_radius_not_rounded :
    corner_radius 512 = 114 ∧ corner_radius_spec_round 512 = 115 ∧
      corner_radius 512 ≠ corner_radius_spec_round 512 := by
  refine ⟨by norm_num [corner_radius], by norm_num [corner_radius_spec_round], ?_⟩
  norm_num [corner_radius, corner_radius_spec_round]

/-- C4 amended: the mask radius is `size * 0.2237` truncated (floored), the
unique integer `r` with `10000 * r ≤ 2237 * size < 10000 * (r + 1)`. -/
theorem corner_radius_is_floor (size : ℕ) (hsize : 0 < size) :
    10000 * corner_radius size ≤ size * 2237 ∧
      size * 2237 < 10000 * (corner_radius size + 1) := by
  have h := Nat.div_add_mod (size * 2237) 10000
  have h2 : (size * 2237) % 10000 < 10000 := Nat.mod_lt _ (by norm_num)
  unfold corner_radius
  omega

/-- Witness for C4's amended theorem at size 512. -/
theorem corner_radius_is_floor_witness :
    0 < 512 ∧ (10000 * corner_radius 512 ≤ 512 * 2237 ∧
      512 * 2237 < 10000 * (corner_radius 512 + 1)) :=
  ⟨by decide, corner_radius_is_floor 512 (by decide)⟩

/-- C7: at size 512 the four extreme corner pixels of the masked canvas have
alpha 0, for every input canvas: the mask is 0 there, and `min a 0 = 0`. -/
theorem corner_pixels_transparent (img : Canvas) :
    (apply_macos_rounding img 512 0 0).a = 0 ∧
      (apply_macos_rounding img 512 511 0).a = 0 ∧
      (apply_macos_rounding img 512 0 511).a = 0 ∧
      (apply_macos_rounding img 512 511 511).a = 0 := by
  have h00 : rounded_rect_mask 512 ((corner_radius 512 : ℕ) : ℤ) 0 0 = 0 := by decide
  have h10 : rounded_rect_mask 512 ((corner_radius 512 : ℕ) : ℤ) 511 0 = 0 := by decide
  have h01 : rounded_rect_mask 512 ((corner_radius 512 : ℕ) : ℤ) 0 511 = 0 := by decide
  have h11 : rounded_rect_mask 512 ((corner_radius 512 : ℕ) : ℤ) 511 511 = 0 := by decide
  refine ⟨?_, ?_, ?_, ?_⟩ <;>
    simp [apply_macos_rounding, h00, h10, h01, h11]

/-- C10: the two `apply_macos_rounding` implementations in
`generate_icon.py` and `process_ai_icon.py` compute the same function,
pixel for pixel. -/
theorem apply_macos_rounding_implementations_agree (img : Canvas) (size x y : ℕ)
    (hsize : 0 < size) :
    GenerateIcon.apply_macos_rounding img size x y
      = ProcessAiIcon.apply_macos_rounding img size x y :=
  rfl

/-- Witness for C10 at a concrete canvas, size 8 and pixel (2, 5). -/
theorem apply_macos_rounding_implementations_agree_witness :
    0 < 8 ∧
      GenerateIcon.apply_macos_rounding (fun _ _ => ⟨4, 5, 6, 250⟩) 8 2 5
        = ProcessAiIcon.apply_macos_rounding (fun _ _ => ⟨4, 5, 6, 250⟩) 8 2 5 :=
  ⟨by decide,
    apply_macos_rounding_implementations_agree (fun _ _ => ⟨4, 5, 6, 250⟩) 8 2 5 (by decide)⟩

end MaskerTheorems

namespace GenerateIcon

/-- A draw command issued to the PIL drawing surface: the renderer's output
canvas is the fully transparent `size × size` canvas after executing the
commands back to front.  Coordinates are the source's floats, idealised
over `ℝ`; fill colors are integer RGBA 4-tuples. -/
inductive DrawCmd where
  | ellipse (x0 y0 x1 y1 : ℝ) (fill : ℤ × ℤ × ℤ × ℤ)
  | polygon (pts : List (ℝ × ℝ)) (fill : ℤ × ℤ × ℤ × ℤ)

/-- Embeds `math.radians(d)`: degrees to radians. -/
noncomputable def radians (d : ℝ) : ℝ := d * Real.pi / 180

/-- The angles of the green arc sweep, `range(-70, 30, 1)` from
`generate_icon.py` line 129: the integers −70, −69, …, 29 (Python `range`
excludes the stop value 30). -/
def sweepA_angles : List ℤ := (List.range 100).map (fun i => -70 + (i : ℤ))

/-- The angles of the blue arc sweep, `range(110, 210, 1)` from
`generate_icon.py` line 144: the integers 110, 111, …, 209. -/
def sweepB_angles : List ℤ := (List.range 100).map (fun i => 110 + (i : ℤ))

/-- The green sweep's blend parameter `t = (angle + 70) / 100`
(`generate_icon.py` line 135), over exact rationals. -/
def tA (angle : ℤ) : ℚ := ((angle : ℚ) + 70) / 100

/-- The blue sweep's blend parameter `t = (angle - 110) / 100`
(`generate_icon.py` line 149). -/
def tB (angle : ℤ) : ℚ := ((angle : ℚ) - 110) / 100

/-- The green sweep's gradient formula as a function of the blend parameter
(`generate_icon.py` lines 136-138): `r = int(46 - 10 t)`,
`g = int(160 + 20 (1 - t))`, `b = int(67 + 30 (1 - t))`.  Python `int`
truncates toward zero; the three values are nonnegative throughout the
sweep, so truncation is floor. -/
def sweepA_colorQ (t : ℚ) : ℤ × ℤ × ℤ :=
  (Int.floor (46 - 10 * t), Int.floor (160 + 20 * (1 - t)), Int.floor (67 + 30 * (1 - t)))

/-- The green stamp color at a sweep angle. -/
def sweepA_color (angle : ℤ) : ℤ × ℤ × ℤ := sweepA_colorQ (tA angle)

/-- The blue sweep's gradient formula (`generate_icon.py` lines 150-152):
`r = int(47 + 20 (1 - t))`, `g = int(129 + 30 (1 - t))`,
`b = int(247 - 20 t)`. -/
def sweepB_colorQ (t : ℚ) : ℤ × ℤ × ℤ :=
  (Int.floor (47 + 20 * (1 - t)), Int.floor (129 + 30 * (1 - t)), Int.floor (247 - 20 * t))

/-- The blue stamp color at a sweep angle. -/
def sweepB_color (angle : ℤ) : ℤ × ℤ × ℤ := sweepB_colorQ (tB angle)

/-- Embeds `create_icon(size)` from `generate_icon.py` (lines 12-190) as the
ordered list of draw commands executed on a fresh fully transparent
`size × size` RGBA canvas.  Every `int(k * scale)` with `scale = size / 1024`
is exact in floating point (1024 is a power of two) and is modelled as
`k * size / 1024` with truncating integer division; trigonometric positions
are idealised over `ℝ`. -/
noncomputable def create_icon (size : ℕ) : List DrawCmd :=
  let cx : ℤ := (size : ℤ) / 2
  let cy : ℤ := (size : ℤ) / 2
  let isc : ℤ → ℤ := fun k => k * (size : ℤ) / 1024
  let github_dark : ℤ × ℤ × ℤ × ℤ := (36, 41, 47, 255)
  let github_green : ℤ × ℤ × ℤ × ℤ := (46, 160, 67, 255)
  let github_blue : ℤ × ℤ × ℤ × ℤ := (47, 129, 247, 255)
  let white : ℤ × ℤ × ℤ × ℤ := (255, 255, 255, 255)
  let head_radius := isc 140
  let head_cx := cx
  let head_cy := cy - isc 10
  let headCmd := DrawCmd.ellipse (↑(head_cx - head_radius)) (↑(head_cy - head_radius))
    (↑(head_cx + head_radius)) (↑(head_cy + head_radius)) github_dark
  let ear_height := isc 50
  let leftEarCmd := DrawCmd.polygon [
    (↑(head_cx - head_radius + isc 25), ↑(head_cy - head_radius + isc 35)),
    (↑(head_cx - head_radius + isc 50), ↑(head_cy - head_radius - ear_height)),
    (↑(head_cx - head_radius + isc 80), ↑(head_cy - head_radius + isc 25))] github_dark
  let rightEarCmd := DrawCmd.polygon [
    (↑(head_cx + head_radius - isc 25), ↑(head_cy - head_radius + isc 35)),
    (↑(head_cx + head_radius - isc 50), ↑(head_cy - head_radius - ear_height)),
    (↑(head_cx + head_radius - isc 80), ↑(head_cy - head_radius + isc 25))] github_dark
  let body_w := isc 100
  let body_h := isc 70
  let body_top := head_cy + head_radius - isc 20
  let bodyCmd := DrawCmd.ellipse (↑(head_cx - body_w)) (↑body_top)
    (↑(head_cx + body_w)) (↑(body_top + body_h * 2)) github_dark
  let eye_radius := isc 28
  let eye_y := head_cy + isc 10
  let eye_spacing := isc 60
  let leftEyeCmd := DrawCmd.ellipse (↑(head_cx - eye_spacing - eye_radius)) (↑(eye_y - eye_radius))
    (↑(head_cx - eye_spacing + eye_radius)) (↑(eye_y + eye_radius)) white
  let rightEyeCmd := DrawCmd.ellipse (↑(head_cx + eye_spacing - eye_radius)) (↑(eye_y - eye_radius))
    (↑(head_cx + eye_spacing + eye_radius)) (↑(eye_y + eye_radius)) white
  let pupil_radius := isc 10
  let pupil_offset_x := isc 5
  let pupil_offset_y := isc 3
  let leftPupilCmd := DrawCmd.ellipse
    (↑(head_cx - eye_spacing + pupil_offset_x - pupil_radius))
    (↑(eye_y + pupil_offset_y - pupil_radius))
    (↑(head_cx - eye_spacing + pupil_offset_x + pupil_radius))
    (↑(eye_y + pupil_offset_y + pupil_radius)) github_dark
  let rightPupilCmd := DrawCmd.ellipse
    (↑(head_cx + eye_spacing + pupil_offset_x - pupil_radius))
    (↑(eye_y + pupil_offset_y - pupil_radius))
    (↑(head_cx + eye_spacing + pupil_offset_x + pupil_radius))
    (↑(eye_y + pupil_offset_y + pupil_radius)) github_dark
  let highlight_r := isc 6
  let leftHiCmd := DrawCmd.ellipse
    (↑(head_cx - eye_spacing - isc 8 - highlight_r)) (↑(eye_y - isc 8 - highlight_r))
    (↑(head_cx - eye_spacing - isc 8 + highlight_r)) (↑(eye_y - isc 8 + highlight_r)) white
  let rightHiCmd := DrawCmd.ellipse
    (↑(head_cx + eye_spacing - isc 8 - highlight_r)) (↑(eye_y - isc 8 - highlight_r))
    (↑(head_cx + eye_spacing - isc 8 + highlight_r)) (↑(eye_y - isc 8 + highlight_r)) white
  let arc_radius := isc 220
  let arc_width := isc 26
  let w := arc_width / 2
  let stampsA := sweepA_angles.map (fun (angle : ℤ) =>
    let rad := radians (angle : ℝ)
    let x : ℝ := (cx : ℝ) + (arc_radius : ℝ) * Real.cos rad
    let y : ℝ := (cy : ℝ) + (arc_radius : ℝ) * Real.sin rad
    let c := sweepA_color angle
    DrawCmd.ellipse (x - (w : ℝ)) (y - (w : ℝ)) (x + (w : ℝ)) (y + (w : ℝ))
      (c.1, c.2.1, c.2.2, 255))
  let stampsB := sweepB_angles.map (fun (angle : ℤ) =>
    let rad := radians (angle : ℝ)
    let x : ℝ := (cx : ℝ) + (arc_radius : ℝ) * Real.cos rad
    let y : ℝ := (cy : ℝ) + (arc_radius : ℝ) * Real.sin rad
    let c := sweepB_color angle
    DrawCmd.ellipse (x - (w : ℝ)) (y - (w : ℝ)) (x + (w : ℝ)) (y + (w : ℝ))
      (c.1, c.2.1, c.2.2, 255))
  let arrow_size := isc 45
  let angle1 := radians 30
  let ax1 : ℝ := (cx : ℝ) + (arc_radius : ℝ) * Real.cos angle1
  let ay1 : ℝ := (cy : ℝ) + (arc_radius : ℝ) * Real.sin angle1
  let tip_angle1 := radians (30 + 90)
  let greenArrowCmd := DrawCmd.polygon [
    (ax1 + (arrow_size : ℝ) * Real.cos (tip_angle1 + radians 0),
      ay1 + (arrow_size : ℝ) * Real.sin (tip_angle1 + radians 0)),
    (ax1 + (arrow_size : ℝ) * 0.55 * Real.cos (tip_angle1 + radians 135),
      ay1 + (arrow_size : ℝ) * 0.55 * Real.sin (tip_angle1 + radians 135)),
    (ax1 + (arrow_size : ℝ) * 0.55 * Real.cos (tip_angle1 + radians 225),
      ay1 + (arrow_size : ℝ) * 0.55 * Real.sin (tip_angle1 + radians 225))] github_green
  let angle2 := radians 210
  let ax2 : ℝ := (cx : ℝ) + (arc_radius : ℝ) * Real.cos angle2
  let ay2 : ℝ := (cy : ℝ) + (arc_radius : ℝ) * Real.sin angle2
  let tip_angle2 := radians (210 + 90)
  let blueArrowCmd := DrawCmd.polygon [
    (ax2 + (arrow_size : ℝ) * Real.cos (tip_angle2 + radians 0),
      ay2 + (arrow_size : ℝ) * Real.sin (tip_angle2 + radians 0)),
    (ax2 + (arrow_size : ℝ) * 0.55 * Real.cos (tip_angle2 + radians 135),
      ay2 + (arrow_size : ℝ) * 0.55 * Real.sin (tip_angle2 + radians 135)),
    (ax2 + (arrow_size : ℝ) * 0.55 * Real.cos (tip_angle2 + radians 225),
      ay2 + (arrow_size : ℝ) * 0.55 * Real.sin (tip_angle2 + radians 225))] github_blue
  [headCmd, leftEarCmd, rightEarCmd, bodyCmd, leftEyeCmd, rightEyeCmd,
    leftPupilCmd, rightPupilCmd, leftHiCmd, rightHiCmd]
    ++ stampsA ++ stampsB ++ [greenArrowCmd, blueArrowCmd]

/-- Error raised by the external PIL library: `invalidDimension` from
`Image.new` on a negative width/height, `invalidBox` from the `ImageDraw`
rectangle family on a bounding box with `x1 < x0` (Pillow ≥ 9.2, required
by this repo's use of `Image.Resampling.LANCZOS`). -/
inductive PILError where
  | invalidDimension
  | invalidBox
deriving DecidableEq

/-- Modelled from the spec: PIL `Image.new` (external library code, not in
this repository) rejects negative canvas dimensions; the spec (section 7)
describes failure for invalid sizes.  The repository functions themselves
contain no size validation. -/
def image_new_check (size : ℤ) : Except PILError Unit :=
  if size < 0 then Except.error PILError.invalidDimension else Except.ok ()

/-- Modelled from the spec: PIL `ImageDraw.rounded_rectangle` (external
library code) rejects a degenerate bounding box with `x1 < x0`.  The source
passes the box `[0, 0, size - 1, size - 1]`, so the call fails exactly when
`size - 1 < 0`, i.e. at `size = 0` for sizes the constructor accepts. -/
def rounded_rectangle_check (size : ℤ) : Except PILError Unit :=
  if size - 1 < 0 then Except.error PILError.invalidBox else Except.ok ()

/-- The renderer over integer sizes, with the canvas constructor's failure
path made explicit: `create_icon(size)` first calls
`Image.new('RGBA', (size, size), (0, 0, 0, 0))` and performs no validation
of its own.  Its remaining draw calls use bounding boxes with `x1 ≥ x0`
for every nonnegative size, so the constructor is its only failure path. -/
noncomputable def create_iconE (size : ℤ) : Except PILError (List DrawCmd) :=
  match image_new_check size with
  | Except.error e => Except.error e
  | Except.ok _ => Except.ok (create_icon size.toNat)

/-- The masker over integer sizes, with both library failure paths made
explicit: `apply_macos_rounding(img, size)` first calls
`Image.new('L', (size, size), 0)`, then
`rounded_rectangle([0, 0, size - 1, size - 1], ...)`, and performs no
validation of its own. -/
def apply_macos_roundingE (img : Canvas) (size : ℤ) : Except PILError Canvas :=
  match image_new_check size with
  | Except.error e => Except.error e
  | Except.ok _ =>
    match rounded_rectangle_check size with
    | Except.error e => Except.error e
    | Except.ok _ => Except.ok (apply_macos_rounding img size.toNat)

end GenerateIcon

section RendererTheorems

open GenerateIcon

/-- The green sweep's blend parameter hits 1 only at angle 30. -/
theorem tA_eq_one_iff (a : ℤ) : tA a = 1 ↔ a = 30 := by
  unfold tA
  rw [div_eq_one_iff_eq (by norm_num : (100 : ℚ) ≠ 0)]
  constructor
  · intro h
    have : (a : ℚ) = 30 := by linarith
    exact_mod_cast this
  · intro h
    subst h
    norm_num

/-- The blue sweep's blend parameter hits 1 only at angle 210. -/
theorem tB_eq_one_iff (a : ℤ) : tB a = 1 ↔ a = 210 := by
  unfold tB
  rw [div_eq_one_iff_eq (by norm_num : (100 : ℚ) ≠ 0)]
  constructor
  · intro h
    have : (a : ℚ) = 210 := by linarith
    exact_mod_cast this
  · intro h
    subst h
    norm_num

/-- C5 counterexample: neither sweep ever samples the blend parameter
`t = 1`.  The Python loops `range(-70, 30, 1)` and `range(110, 210, 1)`
exclude their stop angles 30 and 210, which are exactly the angles at which
`t` would equal 1, so no stamp with `t = 1` exists. -/
theorem sweep_never_samples_t_one :
    (30 : ℤ) ∉ sweepA_angles ∧ (210 : ℤ) ∉ sweepB_angles ∧
      (sweepA_angles.all fun a => decide (tA a ≠ 1)) = true ∧
      (sweepB_angles.all fun a => decide (tB a ≠ 1)) = true := by
  have h30 : (30 : ℤ) ∉ sweepA_angles := by decide
  have h210 : (210 : ℤ) ∉ sweepB_angles := by decide
  refine ⟨h30, h210, ?_, ?_⟩
  · rw [List.all_eq_true]
    intro a ha
    refine decide_eq_true (fun h1 => ?_)
    exact h30 (((tA_eq_one_iff a).mp h1) ▸ ha)
  · rw [List.all_eq_true]
    intro a ha
    refine decide_eq_true (fun h1 => ?_)
    exact h210 (((tB_eq_one_iff a).mp h1) ▸ ha)

/-- C5 amended: each sweep samples `t = 0` at its first angle (−70 resp.
110), where the stamp color equals the gradient formula's `t = 0` endpoint
color — (46, 180, 97) for the green sweep and (67, 159, 247) for the blue
one — and its last sampled angle is 29 resp. 209 with `t = 0.99`, where the
truncated stamp color coincides with the formula's `t = 1` endpoint color —
(36, 160, 67) resp. (47, 129, 227). -/
theorem sweep_gradient_endpoint_colors :
    sweepA_angles.head? = some (-70) ∧ sweepA_angles.getLast? = some 29 ∧
      tA (-70) = 0 ∧ tA 29 = 99 / 100 ∧
      sweepA_color (-70) = sweepA_colorQ 0 ∧ sweepA_colorQ 0 = (46, 180, 97) ∧
      sweepA_color 29 = sweepA_colorQ 1 ∧ sweepA_colorQ 1 = (36, 160, 67) ∧
      sweepB_angles.head? = some 110 ∧ sweepB_angles.getLast? = some 209 ∧
      tB 110 = 0 ∧ tB 209 = 99 / 100 ∧
      sweepB_color 110 = sweepB_colorQ 0 ∧ sweepB_colorQ 0 = (67, 159, 247) ∧
      sweepB_color 209 = sweepB_colorQ 1 ∧ sweepB_colorQ 1 = (47, 129, 227) := by
  have htA0 : tA (-70) = 0 := by norm_num [tA]
  have htA99 : tA 29 = 99 / 100 := by norm_num [tA]
  have htB0 : tB 110 = 0 := by norm_num [tB]
  have htB99 : tB 209 = 99 / 100 := by norm_num [tB]
  have hcA0 : sweepA_colorQ 0 = (46, 180, 97) := by
    norm_num [sweepA_colorQ]
  have hcA1 : sweepA_colorQ 1 = (36, 160, 67) := by
    norm_num [sweepA_colorQ]
  have hcA99 : sweepA_colorQ (99 / 100) = (36, 160, 67) := by
    norm_num [sweepA_colorQ]
  have hcB0 : sweepB_colorQ 0 = (67, 159, 247) := by
    norm_num [sweepB_colorQ]
  have hcB1 : sweepB_colorQ 1 = (47, 129, 227) := by
    norm_num [sweepB_colorQ]
  have hcB99 : sweepB_colorQ (99 / 100) = (47, 129, 227) := by
    norm_num [sweepB_colorQ]
  refine ⟨by decide, by decide, htA0, htA99, ?_, hcA0, ?_, hcA1,
    by decide, by decide, htB0, htB99, ?_, hcB0, ?_, hcB1⟩
  · rw [sweepA_color, htA0]
  · rw [sweepA_color, htA99, hcA99, hcA1]
  · rw [sweepB_color, htB0]
  · rw [sweepB_color, htB99, hcB99, hcB1]

/-- C6 counterexample: `size = 0` is invalid per the claim (`size ≤ 0`),
yet the renderer raises no input-validation error there: the canvas
constructor accepts the 0 × 0 dimensions and `create_icon(0)` returns a
(degenerate, empty-canvas) draw result. -/
theorem create_icon_size_zero_no_error :
    create_iconE 0 = Except.ok (create_icon 0) := rfl

/-- C6 amended: neither operation validates its size argument itself; all
failures come from the external PIL library.  For `size < 0` both
operations fail with the canvas constructor's dimension error.  At
`size = 0` — invalid per the claim — the masker still fails, but only
because its degenerate mask box `[0, 0, -1, -1]` is rejected by the
drawing primitive, while the renderer does not fail at all: it returns a
degenerate empty canvas.  For `size ≥ 0` the renderer succeeds, and for
`size ≥ 1` so does the masker. -/
theorem size_validation_behaviour (img : Canvas) (size : ℤ) :
    (size < 0 →
        create_iconE size = Except.error PILError.invalidDimension ∧
          apply_macos_roundingE img size = Except.error PILError.invalidDimension) ∧
      (0 ≤ size → create_iconE size = Except.ok (create_icon size.toNat)) ∧
      apply_macos_roundingE img 0 = Except.error PILError.invalidBox ∧
      (1 ≤ size →
        apply_macos_roundingE img size = Except.ok (apply_macos_rounding img size.toNat)) := by
  refine ⟨fun h => ⟨?_, ?_⟩, fun h => ?_, rfl, fun h => ?_⟩
  · unfold create_iconE image_new_check
    rw [if_pos h]
  · unfold apply_macos_roundingE image_new_check
    rw [if_pos h]
  · unfold create_iconE image_new_check
    rw [if_neg (not_lt.mpr h)]
  · unfold apply_macos_roundingE image_new_check rounded_rectangle_check
    rw [if_neg (not_lt.mpr (by omega : (0 : ℤ) ≤ size))]
    rw [if_neg (not_lt.mpr (by omega : (0 : ℤ) ≤ size - 1))]

/-- Witness for C6's amended theorem: failure at size −1, renderer
acceptance at size 0, masker box failure at size 0, masker acceptance at
size 2. -/
theorem size_validation_behaviour_witness :
    ((-1 : ℤ) < 0 ∧
        create_iconE (-1) = Except.error PILError.invalidDimension) ∧
      ((0 : ℤ) ≤ 0 ∧ create_iconE 0 = Except.ok (create_icon 0)) ∧
      apply_macos_roundingE (fun _ _ => ⟨0, 0, 0, 0⟩) 0 = Except.error PILError.invalidBox ∧
      ((1 : ℤ) ≤ 2 ∧
        apply_macos_roundingE (fun _ _ => ⟨0, 0, 0, 0⟩) 2
          = Except.ok (apply_macos_rounding (fun _ _ => ⟨0, 0, 0, 0⟩) 2)) :=
  ⟨⟨by decide, ((size_validation_behaviour (fun _ _ => ⟨0, 0, 0, 0⟩) (-1)).1 (by decide)).1⟩,
    ⟨by decide, (size_validation_behaviour (fun _ _ => ⟨0, 0, 0, 0⟩) 0).2.1 (by decide)⟩,
    (size_validation_behaviour (fun _ _ => ⟨0, 0, 0, 0⟩) 0).2.2.1,
    ⟨by decide, (size_validation_behaviour (fun _ _ => ⟨0, 0, 0, 0⟩) 2).2.2.2 (by decide)⟩⟩

/-- C8: the renderer is a pure function of `size` — it reads no external
state and uses no randomness — so two invocations with the same size
produce identical draw output (hence byte-identical canvases). -/
theorem create_icon_deterministic (s1 s2 : ℕ) (h : s1 = s2) :
    create_icon s1 = create_icon s2 := by rw [h]

/-- Witness for C8 at size 16. -/
theorem create_icon_deterministic_witness :
    (16 : ℕ) = 16 ∧ create_icon 16 = create_icon 16 :=
  ⟨rfl, create_icon_deterministic 16 16 rfl⟩

end RendererTheorems

section PreprocessTheorems

open ProcessAiIcon

/-- C9: with tolerance 40, any pixel whose three color channels all exceed
`255 - 40 = 215` becomes (255, 255, 255, 0); in particular a
(250, 250, 250) pixel becomes (255, 255, 255, 0) whatever its alpha, while
a (200, 200, 200) pixel passes through unchanged. -/
theorem make_transparent_tolerance_forty (img : Canvas) (x y a : ℕ) :
    ((255 - 40 < (img x y).r ∧ 255 - 40 < (img x y).g ∧ 255 - 40 < (img x y).b) →
        make_transparent 40 img x y = ⟨255, 255, 255, 0⟩) ∧
      make_transparent 40 (fun _ _ => ⟨250, 250, 250, a⟩) x y = ⟨255, 255, 255, 0⟩ ∧
      make_transparent 40 (fun _ _ => ⟨200, 200, 200, a⟩) x y = ⟨200, 200, 200, a⟩ := by
  refine ⟨fun h => ?_, ?_, ?_⟩
  · unfold make_transparent make_transparent_pixel
    rw [if_pos h]
  · norm_num [make_transparent, make_transparent_pixel]
  · norm_num [make_transparent, make_transparent_pixel]

/-- Witness for C9 at a concrete near-white canvas and pixel (0, 0). -/
theorem make_transparent_tolerance_forty_witness :
    (255 - 40 < 250 ∧ 255 - 40 < 250 ∧ 255 - 40 < 250) ∧
      make_transparent 40 (fun _ _ => ⟨250, 250, 250, 9⟩) 0 0 = ⟨255, 255, 255, 0⟩ :=
  ⟨by decide,
    (make_transparent_tolerance_forty (fun _ _ => ⟨250, 250, 250, 9⟩) 0 0 9).1 (by decide)⟩

end PreprocessTheorems
